import Mathlib

/-!
Shallow embedding of `cccatalog/api/views/image_views.py`.

The file embeds, faithfully to the Python source:
  - `_add_protocol` (URL normalizer), including the scheme-detection
    behaviour of `urllib.parse.urlparse` on which it relies;
  - the pagination arithmetic of `SearchImages.get` (natural page count,
    last allowed page, capped page count, result count adjustment);
  - the per-result post-processing loop of `SearchImages.get` (thumbnail
    proxying and URL normalization);
  - the deep-pagination error branch of `SearchImages.get`;
  - the provider-name fallback of `ImageDetail.get`;
  - the control flow of `Watermark.get` (404 on missing record, EXIF
    embedding, best-effort XMP embedding with logging).

Python's float divisions (`total / page_size` and
`(5000 + page_size / 2) / page_size`, both truncated with `int(...)`)
are modelled with exact rational arithmetic, i.e. as natural-number
floor divisions of the equivalent integer fractions; in the value ranges
involved (page sizes bounded by a small maximum, hit totals far below
2^53) double-precision evaluation agrees with exact arithmetic.
External collaborators (the search index, the ORM storage, the
`watermark`/`piexif`/`libxmp` libraries) are parameters of the embedded
handlers, as the spec treats them as interfaces.
-/

namespace ImageViews

/-! Scheme detection of urllib.parse:

`urlparse(url).scheme` is non-empty iff the url contains a colon at some
index `i > 0` and every character before that first colon is in
`scheme_chars` (ASCII letters, digits, `+`, `-`, `.`).  If any character
before the first colon is not a scheme character, or the colon is at
index 0, or there is no colon, the scheme is empty. -/

def isSchemeChar (c : Char) : Bool :=
  c.isAlpha || c.isDigit || c == '+' || c == '-' || c == '.'

/-- Scan the characters after a valid first scheme character: a colon ends
the scheme successfully; any non-scheme character before a colon means the
scheme is empty. -/
def schemeScan : List Char → Bool
  | [] => false
  | c :: rest => if c == ':' then true else isSchemeChar c && schemeScan rest

/-- True iff `urlparse` assigns the string a non-empty scheme: the first
character is a scheme character (and not the colon itself, since the
colon must be at index `i > 0`), and scheme characters continue up to a
colon. -/
def hasScheme : List Char → Bool
  | [] => false
  | c :: rest => if c == ':' then false else isSchemeChar c && schemeScan rest

/-- Embeds `_add_protocol` (image_views.py lines 41-51): prepend
`https://` when `urlparse` finds no scheme, otherwise return the string
unchanged. -/
def _add_protocol (url : String) : String :=
  if hasScheme url.data then url else "https://" ++ url

/-! Pagination arithmetic of `SearchImages.get` (lines 120-128). -/

/-- Line 37: the fixed thumbnail width constant, 600 pixels. -/
def THUMBNAIL_WIDTH_PX : Nat := 600

/-- Line 122: natural_page_count, the truncation of
`search_results.hits.total / page_size`, float division modelled exactly. -/
def natural_page_count (total page_size : Nat) : Nat :=
  total / page_size

/-- Line 123: last_allowed_page, the truncation of
`(5000 + page_size / 2) / page_size`.  Exactly,
`(5000 + ps/2) / ps = (2*5000 + ps) / (2*ps)`, so the truncation of the
non-negative float is the floor division below. -/
def last_allowed_page (page_size : Nat) : Nat :=
  (2 * 5000 + page_size) / (2 * page_size)

/-- Line 124: the capped page count, the minimum of the natural page
count and the last allowed page. -/
def page_count (total page_size : Nat) : Nat :=
  min (natural_page_count total page_size) (last_allowed_page page_size)

/-- Lines 126-128: `result_count = search_results.hits.total`, replaced by
`len(results)` when fewer results than `page_size` were returned and the
capped page count is 0. -/
def result_count (total page_size num_returned : Nat) : Nat :=
  if num_returned < page_size ∧ page_count total page_size = 0 then
    num_returned
  else
    total

end ImageViews

namespace ImageViews

/-! Per-result post-processing of `SearchImages.get` (lines 136-158). -/

/-- A serialized search result, with the fields the post-processing loop
reads and writes.  `Option` fields model presence of the dictionary key. -/
structure SerializedResult where
  url : String
  thumbnail : Option String
  provider : String
  foreign_landing_url : Option String
  creator_url : Option String
deriving DecidableEq, Repr

/-- The configuration surface read by the loop: `PROXY_THUMBS`,
`PROXY_ALL` and `THUMBNAIL_PROXY_URL` from `cccatalog.settings`. -/
structure ProxyConfig where
  PROXY_THUMBS : Bool
  PROXY_ALL : List String
  THUMBNAIL_PROXY_URL : String
deriving DecidableEq, Repr

/-- Substring containment on character lists: `pat` occurs as a
contiguous run somewhere in `s`. -/
def substrAt (pat : List Char) : List Char → Bool
  | [] => pat.isEmpty
  | c :: rest => pat.isPrefixOf (c :: rest) || substrAt pat rest

/-- Python's substring test `'http://' in s`. -/
def containsHttp (s : String) : Bool :=
  substrAt "http://".data s.data

/-- Lines 141-144: `to_proxy = THUMBNAIL if THUMBNAIL in res and provider
not in PROXY_ALL else URL`; this is the value `res[to_proxy]`. -/
def proxyTarget (cfg : ProxyConfig) (res : SerializedResult) : String :=
  match res.thumbnail with
  | some t => if cfg.PROXY_ALL.contains res.provider then res.url else t
  | none => res.url

/-- Line 137 and line 145: the condition under which the chosen field is
rewritten: `PROXY_THUMBS` and (`'http://' in res[to_proxy]` or `provider
in PROXY_ALL`). -/
def shouldProxy (cfg : ProxyConfig) (res : SerializedResult) : Bool :=
  cfg.PROXY_THUMBS &&
    (containsHttp (proxyTarget cfg res) || cfg.PROXY_ALL.contains res.provider)

/-- Line 147: the rewritten URL, proxy base, a slash, the fixed width,
a slash, then the original value. -/
def proxiedUrl (cfg : ProxyConfig) (original : String) : String :=
  cfg.THUMBNAIL_PROXY_URL ++ "/" ++ toString THUMBNAIL_WIDTH_PX ++ "/" ++ original

/-- The body of the post-processing loop (lines 136-158) for one result:
possibly rewrite the thumbnail field to the proxied URL, then apply
`_add_protocol` to the foreign landing URL and the creator URL when those
keys are present. -/
def postProcessResult (cfg : ProxyConfig) (res : SerializedResult) : SerializedResult :=
  let res1 :=
    if shouldProxy cfg res then
      { res with thumbnail := some (proxiedUrl cfg (proxyTarget cfg res)) }
    else
      res
  let res2 := { res1 with foreign_landing_url := res1.foreign_landing_url.map _add_protocol }
  { res2 with creator_url := res2.creator_url.map _add_protocol }

/-! The `SearchImages.get` handler after parameter validation
(lines 92-161).  The external search controller either refuses deep
pagination (`ValueError`, modelled as `Except.error`) or returns hits. -/

/-- What the external search controller hands back on success: the raw
total hit count and the (possibly dead-link-filtered) results. -/
structure SearchOutcome where
  hits_total : Nat
  results : List SerializedResult
deriving DecidableEq, Repr

inductive SearchBody
  | success (result_count page_count : Nat) (results : List SerializedResult)
  | validationError (msg : String)
deriving DecidableEq, Repr

structure SearchResponse where
  status : Nat
  body : SearchBody
deriving DecidableEq, Repr

/-- Embeds `SearchImages.get` from the `search_controller.search` call on:
a `ValueError` (deep pagination refused) becomes a 400 response with the
fixed message (lines 98-104); otherwise the page/result counts are
computed (lines 120-128) and each serialized result is post-processed
(lines 136-158). -/
def searchImagesGet (cfg : ProxyConfig) (page_size : Nat)
    (outcome : Except Unit SearchOutcome) : SearchResponse :=
  match outcome with
  | .error _ => ⟨400, .validationError "Deep pagination is not allowed."⟩
  | .ok sr =>
      let pc := page_count sr.hits_total page_size
      let rc := result_count sr.hits_total page_size sr.results.length
      ⟨200, .success rc pc (sr.results.map (postProcessResult cfg))⟩

def SearchResponse.resultCount? : SearchResponse → Option Nat
  | ⟨_, .success rc _ _⟩ => some rc
  | _ => none

def SearchResponse.pageCount? : SearchResponse → Option Nat
  | ⟨_, .success _ pc _⟩ => some pc
  | _ => none

def SearchResponse.results? : SearchResponse → Option (List SerializedResult)
  | ⟨_, .success _ _ rs⟩ => some rs
  | _ => none

/-! Handler `ImageDetail.get` (lines 182-215):

The framework `retrieve` (404 on a missing identifier) and the view-count
decorator are external collaborators; the handler body is embedded from
the point where the record's serialized data is in hand. -/

/-- The fields of an `Image` record that the detail and watermark
handlers read. -/
structure ImageRecord where
  identifier : String
  url : String
  title : String
  creator : String
  creator_url : Option String
  foreign_landing_url : Option String
  license : String
  license_version : String
  license_url : String
  attribution : String
  provider : String
deriving DecidableEq, Repr

/-- A row of the `ContentProvider` collaborator (lines 188-192). -/
structure ContentProviderData where
  provider_name : String
  domain_name : String
deriving DecidableEq, Repr

/-- The response data of `ImageDetail.get` after the handler's edits. -/
structure DetailResponse where
  status : Nat
  provider : String
  provider_url : String
  view_count : Nat
  creator_url : Option String
  foreign_landing_url : Option String
  url : String
deriving DecidableEq, Repr

/-- Embeds `ImageDetail.get` (lines 182-215) for a record that was found:
resolve the provider display name via the `ContentProvider` collaborator,
falling back to the raw identifier and `"Unknown"` (lines 187-195),
attach the view count, normalize creator and foreign landing URLs
(lines 199-205), and proxy the full-resolution URL when it contains
`http://` (lines 207-213, no width segment). -/
def imageDetailGet (providerDb : String → Option ContentProviderData)
    (thumbnailProxyUrl : String) (record : ImageRecord) (view_count : Nat) :
    DetailResponse :=
  let provider := record.provider
  let pdata :=
    match providerDb provider with
    | some pd => (pd.provider_name, pd.domain_name)
    | none => (provider, "Unknown")
  let creator_url := record.creator_url.map _add_protocol
  let foreign_landing_url := record.foreign_landing_url.map _add_protocol
  let url :=
    if containsHttp record.url then
      thumbnailProxyUrl ++ "/" ++ record.url
    else
      record.url
  ⟨200, pdata.1, pdata.2, view_count, creator_url, foreign_landing_url, url⟩

/-! Handler `Watermark.get` (lines 225-263):

The ORM lookup, the `watermark` renderer (fetch + composite, returning
the watermarked pixels and the preserved EXIF tags) and
`ccrel.embed_xmp_bytes` are external collaborators, passed as functions.
Observable side effects (the source-image fetch performed inside
`watermark`, and the error logging) are returned as an event trace. -/

/-- The `image_info` dictionary passed to the renderer (lines 231-236). -/
structure ImageInfo where
  title : String
  creator : String
  license : String
  license_version : String
deriving DecidableEq, Repr

/-- The `work_properties` dictionary for XMP embedding (lines 244-250). -/
structure WorkProperties where
  creator : String
  license_url : String
  attribution : String
  work_landing_page : Option String
  identifier : String
deriving DecidableEq, Repr

/-- Encoded JPEG bytes, abstracted as a pixel-buffer id plus the two
metadata channels: `exif` is the EXIF tag block saved with the image
(line 242), `xmp` the optional rights-expression block. -/
structure EncodedImage where
  pixels : Nat
  exif : List (String × String)
  xmp : Option (List (String × String))
deriving DecidableEq, Repr

/-- Observable effects of the watermark handler. -/
inductive Event
  | fetchSource (url : String)
  | logError (msg : String)
deriving DecidableEq, Repr

inductive WatermarkBody
  | notFound
  | file (img : EncodedImage)
deriving DecidableEq, Repr

structure WatermarkResponse where
  status : Nat
  body : WatermarkBody
deriving DecidableEq, Repr

def imageInfoOf (rec : ImageRecord) : ImageInfo :=
  ⟨rec.title, rec.creator, rec.license, rec.license_version⟩

def workPropertiesOf (rec : ImageRecord) : WorkProperties :=
  ⟨rec.creator, rec.license_url, rec.attribution, rec.foreign_landing_url,
    rec.identifier⟩

/-- Embeds `Watermark.get` (lines 225-263).  A missing identifier yields
a 404 with no events (lines 226-229).  Otherwise the renderer is invoked
on the record's URL (fetching the source image, line 238), the EXIF tags
are re-inserted into the encoded bytes (lines 240-242), and XMP embedding
is attempted (lines 251-263): on success the fully annotated bytes are
returned; on failure the error is logged together with the record
identifier and the EXIF-only bytes are returned, still with status 200. -/
def watermarkGet
    (db : String → Option ImageRecord)
    (renderWatermark : String → ImageInfo → Nat × List (String × String))
    (embedXmpBytes : EncodedImage → WorkProperties → Except String EncodedImage)
    (identifier : String) : WatermarkResponse × List Event :=
  match db identifier with
  | none => (⟨404, .notFound⟩, [])
  | some rec =>
      let rendered := renderWatermark rec.url (imageInfoOf rec)
      let img : EncodedImage := ⟨rendered.1, rendered.2, none⟩
      match embedXmpBytes img (workPropertiesOf rec) with
      | .ok withXmp =>
          (⟨200, .file withXmp⟩, [Event.fetchSource rec.url])
      | .error e =>
          (⟨200, .file img⟩,
            [Event.fetchSource rec.url,
              Event.logError ("Failed to add XMP metadata to " ++ rec.identifier),
              Event.logError e])

/-! Definition written from the spec's words, for comparison with the source:

The spec says the chosen field is proxied when "it uses an insecure
transport scheme"; a URL uses the insecure `http` transport scheme when
it starts with `http://`.  This is the spec-side notion to compare with
the source's substring test `'http://' in res[to_proxy]`. -/

/-- Spec-side predicate: the URL's transport scheme is insecure `http`,
i.e. the string starts with `http://`. -/
def usesInsecureScheme (s : String) : Bool :=
  List.isPrefixOf "http://".data s.data

/-! Concrete data used by witnesses: a proxy configuration, a result
whose thumbnail is secure but contains an embedded `http://` substring,
a result with no thumbnail and an insecure full URL, and a stored image
record together with renderer and XMP-embedding collaborators. -/

def cexCfg : ProxyConfig := ⟨true, [], "https://proxy.example"⟩

def cexResult : SerializedResult :=
  ⟨"https://img.example/full.jpg",
    some "https://img.example/t.jpg?src=http://other.example/x.jpg",
    "museum", none, none⟩

def pxCfg : ProxyConfig := ⟨true, [], "https://proxy.example"⟩

def pxFullUrlResult : SerializedResult :=
  ⟨"http://img.example/full.jpg", none, "prov", none, none⟩

def wmRecord : ImageRecord :=
  ⟨"id1", "http://img.example/x.jpg", "Title", "Creator", none, none,
    "by", "4.0", "https://license.example/by/4.0", "Attribution text", "prov"⟩

def wmRender : String → ImageInfo → Nat × List (String × String) :=
  fun _ _ => (7, [("Artist", "Creator")])

def wmEmbedFail : EncodedImage → WorkProperties → Except String EncodedImage :=
  fun _ _ => .error "libxmp failure"

/-! Claim C1: the capped page count formula. -/

/-- C1: for every `total_hits` and positive `page_size`, the computed
`page_count` equals the minimum of the natural page count
`floor(total_hits / page_size)` and the floor of
`(5000 + page_size / 2) / page_size` taken in exact arithmetic; in
particular for `page_size = 20` the last allowed page is 250. -/
theorem pagination_cap_formula (total ps : Nat) (h : 0 < ps) :
    page_count total ps =
      min (total / ps) (Nat.floor ((5000 + (ps : ℚ) / 2) / (ps : ℚ))) ∧
    last_allowed_page 20 = 250 := by
  constructor
  · have hps : (ps : ℚ) ≠ 0 := Nat.cast_ne_zero.mpr h.ne'
    have hq : ((5000 : ℚ) + (ps : ℚ) / 2) / (ps : ℚ) =
        ((2 * 5000 + ps : ℕ) : ℚ) / ((2 * ps : ℕ) : ℚ) := by
      push_cast
      field_simp
      ring
    unfold page_count natural_page_count last_allowed_page
    rw [hq, Nat.floor_div_eq_div]
  · rfl

/-- Witness for C1 at `total_hits = 100000`, `page_size = 20`. -/
theorem pagination_cap_formula_witness :
    0 < 20 ∧
      (page_count 100000 20 =
        min (100000 / 20) (Nat.floor ((5000 + (20 : ℚ) / 2) / (20 : ℚ))) ∧
      last_allowed_page 20 = 250) :=
  ⟨by decide, pagination_cap_formula 100000 20 (by decide)⟩

/-! Claim C2: the result count adjustment. -/

/-- C2: in a successful search response, if the number of results
actually returned is strictly smaller than `page_size` and the computed
`page_count` is 0, then `result_count` equals the number of returned
results; otherwise it equals the raw total reported by the index. -/
theorem result_count_adjustment (cfg : ProxyConfig) (ps : Nat)
    (sr : SearchOutcome) (rs : List SerializedResult) (pc : Nat)
    (hrs : (searchImagesGet cfg ps (.ok sr)).results? = some rs)
    (hpc : (searchImagesGet cfg ps (.ok sr)).pageCount? = some pc) :
    (searchImagesGet cfg ps (.ok sr)).resultCount? =
      some (if rs.length < ps ∧ pc = 0 then rs.length else sr.hits_total) := by
  simp only [searchImagesGet, SearchResponse.results?, Option.some.injEq] at hrs
  simp only [searchImagesGet, SearchResponse.pageCount?, Option.some.injEq] at hpc
  subst hrs
  subst hpc
  simp [searchImagesGet, SearchResponse.resultCount?, result_count,
    List.length_map]

/-- Witness for C2: 1000 raw hits, page size 20, an empty returned page,
computed page count 50, so the raw total is reported. -/
theorem result_count_adjustment_witness :
    (searchImagesGet ⟨false, [], ""⟩ 20 (.ok ⟨1000, []⟩)).resultCount? =
      some (if ([] : List SerializedResult).length < 20 ∧ (50 : Nat) = 0
        then ([] : List SerializedResult).length else 1000) :=
  result_count_adjustment ⟨false, [], ""⟩ 20 ⟨1000, []⟩ [] 50 rfl rfl

/-! Claim C3: the URL normalizer contract. -/

/-- C3: `_add_protocol` prepends `https://` exactly when the string has
no scheme component, returns the string unchanged otherwise (in
particular an existing insecure `http` scheme is kept), and in both
cases the original string survives intact as a suffix, so no query
string, fragment or host casing is altered. -/
theorem add_protocol_contract (url : String) :
    (hasScheme url.data = false → _add_protocol url = "https://" ++ url) ∧
    (hasScheme url.data = true → _add_protocol url = url) ∧
    url.data <:+ (_add_protocol url).data := by
  refine ⟨fun h => ?_, fun h => ?_, ?_⟩
  · simp [_add_protocol, h]
  · simp [_add_protocol, h]
  · cases hs : hasScheme url.data with
    | true =>
        unfold _add_protocol
        rw [if_pos hs]
    | false =>
        unfold _add_protocol
        rw [if_neg (by simp [hs])]
        rw [String.data_append]
        exact List.suffix_append _ _

/-- Witness for C3 on the spec's two examples: a scheme-less URL gets
`https://` prepended, and an insecure `http://` URL is left unchanged. -/
theorem add_protocol_contract_witness :
    (hasScheme "example.com/a.jpg".data = false ∧
      _add_protocol "example.com/a.jpg" = "https://" ++ "example.com/a.jpg") ∧
    (hasScheme "http://example.com/a.jpg".data = true ∧
      _add_protocol "http://example.com/a.jpg" = "http://example.com/a.jpg") :=
  ⟨⟨by decide, (add_protocol_contract "example.com/a.jpg").1 (by decide)⟩,
    ⟨by decide, (add_protocol_contract "http://example.com/a.jpg").2.1 (by decide)⟩⟩

/-! Claim C10: idempotence of the URL normalizer. -/

/-- Helper: a string starting with `https://` always has a scheme. -/
theorem hasScheme_https_append (url : String) :
    hasScheme ("https://" ++ url).data = true := rfl

/-- C10: `_add_protocol` is idempotent: applying it twice yields the
same string as applying it once, because its output always has a
non-empty scheme component. -/
theorem add_protocol_idempotent (url : String) :
    _add_protocol (_add_protocol url) = _add_protocol url := by
  by_cases h : hasScheme url.data = true
  · have h1 : _add_protocol url = url := by
      unfold _add_protocol
      rw [if_pos h]
    rw [h1]
    exact h1
  · have h1 : _add_protocol url = "https://" ++ url := by
      unfold _add_protocol
      rw [if_neg h]
    rw [h1]
    unfold _add_protocol
    rw [if_pos (hasScheme_https_append url)]

/-! Claim C6: uniform deep-pagination error. -/

/-- C6: when the external index refuses the query (the `ValueError`
branch), the search handler returns status 400 with the fixed
`validation_error` message, never the internal exception. -/
theorem deep_pagination_uniform_error (cfg : ProxyConfig) (ps : Nat)
    (e : Unit) :
    searchImagesGet cfg ps (.error e) =
      ⟨400, .validationError "Deep pagination is not allowed."⟩ := rfl

/-! Claim C4: the proxy decision.  The claim's proxy trigger reads "uses
an insecure transport scheme"; the source tests whether the string
`http://` occurs anywhere in the value, which also fires on a secure
URL with an embedded `http://` substring.  The counterexample exhibits
such a value; the amended theorem states the trigger as the source's
substring test. -/

/-- C4 counterexample: with proxying enabled, a provider outside
`PROXY_ALL` and a thumbnail whose transport scheme is secure `https`
but whose query string embeds `http://`, the source still rewrites the
thumbnail, contradicting the claim that proxying happens only for an
insecure transport scheme or a `PROXY_ALL` provider. -/
theorem proxy_decision_counterexample :
    cexCfg.PROXY_THUMBS = true ∧
    cexCfg.PROXY_ALL.contains cexResult.provider = false ∧
    usesInsecureScheme (proxyTarget cexCfg cexResult) = false ∧
    (postProcessResult cexCfg cexResult).thumbnail ≠ cexResult.thumbnail := by
  decide

/-- C4 (amended): when `PROXY_THUMBS` is false nothing is proxied; the
proxy target is the thumbnail when one exists and the provider is not
in `PROXY_ALL`, and the full URL otherwise; and when `PROXY_THUMBS` is
true the chosen field is proxied iff its value contains the substring
`http://` (rather than: uses an insecure transport scheme) or the
provider is in `PROXY_ALL`; an unproxied result keeps its thumbnail. -/
theorem proxy_decision (cfg : ProxyConfig) (res : SerializedResult) :
    (cfg.PROXY_THUMBS = false →
      shouldProxy cfg res = false ∧
      (postProcessResult cfg res).thumbnail = res.thumbnail) ∧
    (∀ t, res.thumbnail = some t →
      cfg.PROXY_ALL.contains res.provider = false → proxyTarget cfg res = t) ∧
    ((res.thumbnail = none ∨ cfg.PROXY_ALL.contains res.provider = true) →
      proxyTarget cfg res = res.url) ∧
    (cfg.PROXY_THUMBS = true →
      (shouldProxy cfg res = true ↔
        (containsHttp (proxyTarget cfg res) = true ∨
          cfg.PROXY_ALL.contains res.provider = true))) ∧
    (shouldProxy cfg res = false →
      (postProcessResult cfg res).thumbnail = res.thumbnail) := by
  refine ⟨fun h => ⟨?_, ?_⟩, fun t ht hp => ?_, fun h => ?_, fun h => ?_,
    fun h => ?_⟩
  · simp [shouldProxy, h]
  · simp [postProcessResult, shouldProxy, h]
  · simp only [proxyTarget, ht]
    rw [if_neg (by rw [hp]; exact Bool.false_ne_true)]
  · rcases h with h | h
    · simp [proxyTarget, h]
    · cases hth : res.thumbnail with
      | none => simp [proxyTarget, hth]
      | some t =>
          simp only [proxyTarget, hth]
          rw [if_pos h]
  · simp [shouldProxy, h]
  · simp [postProcessResult, h]

/-- Witness for C4 (amended) at the counterexample's configuration. -/
theorem proxy_decision_witness :
    shouldProxy cexCfg cexResult = true ↔
      (containsHttp (proxyTarget cexCfg cexResult) = true ∨
        cexCfg.PROXY_ALL.contains cexResult.provider = true) :=
  (proxy_decision cexCfg cexResult).2.2.2.1 (by decide)

/-! Claim C5: the proxied value's shape. -/

/-- C5: whenever the decision engine proxies a result, the chosen
field's value is rewritten to the proxy base, then `/600/` (the fixed
thumbnail width constant), then the original value, and the rewritten
value is stored under the thumbnail output field, also when the proxied
target was the full URL. -/
theorem proxied_value_shape (cfg : ProxyConfig) (res : SerializedResult)
    (h : shouldProxy cfg res = true) :
    (postProcessResult cfg res).thumbnail =
      some (cfg.THUMBNAIL_PROXY_URL ++ "/600/" ++ proxyTarget cfg res) ∧
    toString THUMBNAIL_WIDTH_PX = "600" := by
  constructor
  · simp [postProcessResult, proxiedUrl, h]
    have h6 : toString THUMBNAIL_WIDTH_PX = "600" := rfl
    rw [h6]
    apply String.ext
    simp [String.data_append]
  · rfl

/-- Witness for C5 on a result with no thumbnail and an insecure full
URL: the full URL is the proxied target and the rewrite lands in the
thumbnail output field. -/
theorem proxied_value_shape_witness :
    shouldProxy pxCfg pxFullUrlResult = true ∧
    ((postProcessResult pxCfg pxFullUrlResult).thumbnail =
      some (pxCfg.THUMBNAIL_PROXY_URL ++ "/600/" ++
        proxyTarget pxCfg pxFullUrlResult) ∧
      toString THUMBNAIL_WIDTH_PX = "600") :=
  ⟨by decide, proxied_value_shape pxCfg pxFullUrlResult (by decide)⟩

/-! Claim C7: XMP failure fallback in the watermark handler. -/

/-- C7: when the XMP rights-expression embedding fails, the watermark
handler logs the failure with the record identifier and still returns a
status-200 image response carrying the EXIF-annotated bytes (with no
XMP block); the failure is never surfaced to the caller. -/
theorem xmp_failure_fallback
    (db : String → Option ImageRecord)
    (render : String → ImageInfo → Nat × List (String × String))
    (embed : EncodedImage → WorkProperties → Except String EncodedImage)
    (idn : String) (rec : ImageRecord) (e : String)
    (hdb : db idn = some rec)
    (hx : embed ⟨(render rec.url (imageInfoOf rec)).1,
        (render rec.url (imageInfoOf rec)).2, none⟩ (workPropertiesOf rec) =
      .error e) :
    (watermarkGet db render embed idn).1 =
      ⟨200, .file ⟨(render rec.url (imageInfoOf rec)).1,
        (render rec.url (imageInfoOf rec)).2, none⟩⟩ ∧
    Event.logError ("Failed to add XMP metadata to " ++ rec.identifier) ∈
      (watermarkGet db render embed idn).2 := by
  unfold watermarkGet
  rw [hdb]
  simp [hx]

/-- Witness for C7: a stored record with an always-failing XMP
collaborator still yields a 200 response with the EXIF-only bytes and
the logged identifier. -/
theorem xmp_failure_fallback_witness :
    (watermarkGet (fun _ => some wmRecord) wmRender wmEmbedFail "id1").1 =
      ⟨200, .file ⟨(wmRender wmRecord.url (imageInfoOf wmRecord)).1,
        (wmRender wmRecord.url (imageInfoOf wmRecord)).2, none⟩⟩ ∧
    Event.logError ("Failed to add XMP metadata to " ++ wmRecord.identifier) ∈
      (watermarkGet (fun _ => some wmRecord) wmRender wmEmbedFail "id1").2 :=
  xmp_failure_fallback (fun _ => some wmRecord) wmRender wmEmbedFail
    "id1" wmRecord "libxmp failure" rfl rfl

/-! Claim C8: missing identifier in the watermark handler. -/

/-- C8: when the identifier is absent from storage the watermark
handler answers 404 with an empty effect trace, so no source-image
fetch or rendering happens (for every renderer and XMP collaborator);
when the identifier is present the source image of the record is
fetched, i.e. the rendering pipeline is invoked. -/
theorem missing_identifier_404
    (db : String → Option ImageRecord)
    (render : String → ImageInfo → Nat × List (String × String))
    (embed : EncodedImage → WorkProperties → Except String EncodedImage)
    (idn : String) :
    (db idn = none →
      watermarkGet db render embed idn = (⟨404, .notFound⟩, [])) ∧
    (∀ rec, db idn = some rec →
      Event.fetchSource rec.url ∈ (watermarkGet db render embed idn).2) := by
  constructor
  · intro h
    unfold watermarkGet
    rw [h]
  · intro rec h
    rcases hx : embed ⟨(render rec.url (imageInfoOf rec)).1,
        (render rec.url (imageInfoOf rec)).2, none⟩ (workPropertiesOf rec)
      with e | w
    all_goals simp [watermarkGet, h, hx]

/-- Witness for C8: an empty store yields the bare 404, and the
populated store leads to a fetch of the record's source URL. -/
theorem missing_identifier_404_witness :
    watermarkGet (fun _ => none) wmRender wmEmbedFail "nope" =
      (⟨404, .notFound⟩, []) ∧
    Event.fetchSource wmRecord.url ∈
      (watermarkGet (fun _ => some wmRecord) wmRender wmEmbedFail "id1").2 :=
  ⟨(missing_identifier_404 (fun _ => none) wmRender wmEmbedFail "nope").1 rfl,
    (missing_identifier_404 (fun _ => some wmRecord) wmRender wmEmbedFail
      "id1").2 wmRecord rfl⟩

/-! Claim C9: provider fallback in the detail handler. -/

/-- C9: when the provider-metadata collaborator has no entry for the
record's provider identifier, the detail response carries the raw
provider identifier as display name and the string `Unknown` as the
provider URL, with status 200 (the request does not fail). -/
theorem unknown_provider_fallback
    (providerDb : String → Option ContentProviderData)
    (proxyUrl : String) (record : ImageRecord) (vc : Nat)
    (h : providerDb record.provider = none) :
    (imageDetailGet providerDb proxyUrl record vc).provider =
      record.provider ∧
    (imageDetailGet providerDb proxyUrl record vc).provider_url =
      "Unknown" ∧
    (imageDetailGet providerDb proxyUrl record vc).status = 200 := by
  simp [imageDetailGet, h]

/-- Witness for C9: an empty provider collaborator on a concrete
record. -/
theorem unknown_provider_fallback_witness :
    (imageDetailGet (fun _ => none) "https://proxy.example" wmRecord 3).provider =
      wmRecord.provider ∧
    (imageDetailGet (fun _ => none) "https://proxy.example" wmRecord 3).provider_url =
      "Unknown" ∧
    (imageDetailGet (fun _ => none) "https://proxy.example" wmRecord 3).status = 200 :=
  unknown_provider_fallback (fun _ => none) "https://proxy.example" wmRecord 3 rfl

end ImageViews
